import Mathlib

/-
A shallow embedding of rdb_protocol/query_cache.cc (RethinkDB query cache):
the per-connection token-keyed registry of in-flight queries.  Pure data from
the surrounding system (datums, streams, terms) is modelled by its observable
behavior; the control flow of query_cache.cc is translated statement by
statement.  Exceptions are modelled by explicit result constructors, C++
guarantee failures (process aborts) by a dedicated fatal constructor, and the
mutation of the entry and cache by explicit state passing.
-/

namespace ql

/-- Datums are opaque client values; the query cache only routes them, so we
model them by an opaque code. -/
abbrev datum_t := Nat

/-- entry_t::state_t: lifecycle states of a cache entry. -/
inductive state_t
  | START
  | STREAM
  | DONE
  | DELETING
deriving DecidableEq

/-- The Response::ResponseType values used by the query cache. -/
inductive response_type_t
  | SUCCESS_ATOM
  | SUCCESS_SEQUENCE
  | SUCCESS_PARTIAL
  | CLIENT_ERROR
  | COMPILE_ERROR
  | RUNTIME_ERROR
deriving DecidableEq

/-- feed_type_t: change-feed category of a datum stream. -/
inductive feed_type_t
  | not_feed
  | stream
  | point
  | orderby_limit
  | unioned
deriving DecidableEq

/-- Response notes added by serve for feeds. -/
inductive response_note_t
  | SEQUENCE_FEED
  | ATOM_FEED
  | ORDER_BY_LIMIT_FEED
  | UNIONED_FEED
deriving DecidableEq

/-- Backtraces attached to bt_exc_t: either backtrace_registry_t::EMPTY_BACKTRACE
or a datum backtrace produced by bt_reg.datum_backtrace(exc), modelled by the
message of the exception it was produced from. -/
inductive backtrace_t
  | EMPTY_BACKTRACE
  | datum_backtrace (info : String)
deriving DecidableEq

/-- bt_exc_t: the exception that crosses the query-cache boundary, carrying a
response kind, a message and a backtrace. -/
structure bt_exc_t where
  rkind : response_type_t
  msg : String
  bt : backtrace_t
deriving DecidableEq

/-- The data slot of response_t: unset, a single datum (set_data(datum_t)), or
a vector of datums (set_data(std::vector)). -/
inductive response_data_t
  | noData
  | atomData (d : datum_t)
  | seqData (ds : List datum_t)
deriving DecidableEq

/-- response_t as populated by fill_response. -/
structure response_t where
  rtype : Option response_type_t := none
  rdata : response_data_t := response_data_t.noData
  notes : List response_note_t := []
  profile_field : Option datum_t := none
deriving DecidableEq

def response_t.clear (_ : response_t) : response_t := {}

def response_t.set_type (r : response_t) (t : response_type_t) : response_t :=
  {r with rtype := some t}

def response_t.set_data (r : response_t) (d : datum_t) : response_t :=
  {r with rdata := response_data_t.atomData d}

def response_t.set_data_vec (r : response_t) (ds : List datum_t) : response_t :=
  {r with rdata := response_data_t.seqData ds}

def response_t.add_note (r : response_t) (n : response_note_t) : response_t :=
  {r with notes := r.notes ++ [n]}

def response_t.set_profile (r : response_t) (d : datum_t) : response_t :=
  {r with profile_field := some d}

/-- One next_batch observation: a batch together with the value is_exhausted
reports after producing it, or an exception raised by the evaluator while
producing the batch. -/
inductive batch_outcome_t
  | batch (ds : List datum_t) (exhausted : Bool)
  | raise_exc (msg : String)
  | raise_std (msg : String)
deriving DecidableEq

/-- datum_stream_t as the query cache observes it: its change-feed category,
the successive outcomes of its next_batch calls, and the extra notes its
set_notes call appends to a response. -/
structure datum_stream_t where
  cfeed_type : feed_type_t
  obs : List batch_outcome_t
  extra_notes : List response_note_t := []
deriving DecidableEq

/-- next_batch consumes one observation; a stream with no observations left
behaves as drained: empty batch, is_exhausted true. -/
def datum_stream_t.next_batch (s : datum_stream_t) : batch_outcome_t × datum_stream_t :=
  match s.obs with
  | [] => (batch_outcome_t.batch [] true, s)
  | o :: rest => (o, {s with obs := rest})

/-- The possible shapes of the val_t produced by evaluating the root term, as
run discriminates them: convertible to DATUM, promiscuous grouped data
(already serialized for the client), convertible to SEQUENCE (with the result
of as_array, which is a datum when the sequence is fully materializable), or
any other type, identified by its name. -/
inductive val_model_t
  | datumVal (d : datum_t)
  | groupedVal (d : datum_t)
  | seqVal (as_array : Option datum_t) (s : datum_stream_t)
  | otherVal (type_name : String)
deriving DecidableEq

/-- The behavior of root_term->eval under the entry environment: a value, or
an exc_t or std::exception raised by the evaluator.  interrupted_exc_t is not
a property of the term: it arises from the interruptors, see eval_event_t. -/
inductive term_eval_t
  | val (v : val_model_t)
  | raise_exc (msg : String)
  | raise_std (msg : String)
deriving DecidableEq

/-- entry_t: one token of live query state.  Fields not observed by the
modelled control flow (job_id, start_time, bt_reg, term_storage,
global_optargs, mutex, drainer) are omitted; persistent_interruptor records
whether the cond_t has been pulsed. -/
structure entry_t where
  state : state_t
  noreply : Bool
  profile : Bool
  root_term : Option term_eval_t
  stream : Option datum_stream_t
  has_sent_batch : Bool
  persistent_interruptor : Bool
deriving DecidableEq

/-- query_cache_t::terminate_internal: move START or STREAM to DONE, then
pulse the persistent interruptor (idempotently). -/
def terminate_internal (e : entry_t) : entry_t :=
  let e1 := if e.state = state_t.START ∨ e.state = state_t.STREAM
            then {e with state := state_t.DONE} else e
  {e1 with persistent_interruptor := true}

/-- What happens concurrently while an evaluation inside fill_response
(root_term eval or stream next_batch) is suspended: nothing,
terminate_internal invoked on the entry (client STOP via terminate_query, or
an agent calling terminate_internal through the jobs table), a direct pulse
of the persistent interruptor with no state transition, or the external
per-request interruptor firing.  Any event other than noEvent makes the
evaluation raise interrupted_exc_t, as does a persistent interruptor that is
already pulsed when the evaluation starts. -/
inductive eval_event_t
  | noEvent
  | terminateInternalEvent
  | directPulseEvent
  | externalInterrupt
deriving DecidableEq

def apply_event (e : entry_t) : eval_event_t → entry_t
  | eval_event_t.noEvent => e
  | eval_event_t.terminateInternalEvent => terminate_internal e
  | eval_event_t.directPulseEvent => {e with persistent_interruptor := true}
  | eval_event_t.externalInterrupt => e

/-- The exceptions the try block of fill_response distinguishes. -/
inductive eval_exc_t
  | interrupted_exc
  | exc (msg : String)
  | std_exc (msg : String)
deriving DecidableEq

/-- Whether the combined interruptor is (or becomes) pulsed during the
current evaluation. -/
def interrupted_now (e : entry_t) (ev : eval_event_t) : Bool :=
  e.persistent_interruptor || decide (ev ≠ eval_event_t.noEvent)

/-- Result of ref_t::run: normal return with the updated entry and response,
an exception escaping (with the entry as mutated up to the raise), or a
guarantee failure / null dereference aborting the process. -/
inductive run_result_t
  | ok (e : entry_t) (res : response_t)
  | raised (exc : eval_exc_t) (e : entry_t)
  | fatal
deriving DecidableEq

def other_type_msg (nm : String) : String :=
  "Query result must be of type DATUM, GROUPED_DATA, or STREAM (got " ++ nm ++ ")."

/-- ref_t::run: pre-set the state to DONE, evaluate the root term under an
empty variable scope, and dispatch on the type of the value. -/
def run (e0 : entry_t) (res : response_t) (ev : eval_event_t) : run_result_t :=
  let e := {e0 with state := state_t.DONE}
  match e.root_term with
  | none => run_result_t.fatal
  | some t =>
    if interrupted_now e ev then
      run_result_t.raised eval_exc_t.interrupted_exc (apply_event e ev)
    else
      match t with
      | term_eval_t.raise_exc msg => run_result_t.raised (eval_exc_t.exc msg) e
      | term_eval_t.raise_std msg => run_result_t.raised (eval_exc_t.std_exc msg) e
      | term_eval_t.val v =>
        match v with
        | val_model_t.datumVal d =>
            run_result_t.ok e ((res.set_type response_type_t.SUCCESS_ATOM).set_data d)
        | val_model_t.groupedVal d =>
            run_result_t.ok e ((res.set_type response_type_t.SUCCESS_ATOM).set_data d)
        | val_model_t.seqVal (some arr) _ =>
            run_result_t.ok e ((res.set_type response_type_t.SUCCESS_ATOM).set_data arr)
        | val_model_t.seqVal none s =>
            run_result_t.ok {e with stream := some s, has_sent_batch := false,
                                    state := state_t.STREAM} res
        | val_model_t.otherVal nm =>
            run_result_t.raised (eval_exc_t.exc (other_type_msg nm)) e

/-- batch_type_t values serve chooses between. -/
inductive batch_type_t
  | NORMAL
  | NORMAL_FIRST
deriving DecidableEq

/-- Result of ref_t::serve, also recording the batch kind requested from the
stream. -/
inductive serve_result_t
  | served (e : entry_t) (res : response_t) (requested : batch_type_t)
  | raisedS (exc : eval_exc_t) (e : entry_t)
  | fatalS
deriving DecidableEq

/-- The tail of ref_t::serve after the batch is stored: the cfeed_type switch
followed by stream->set_notes(res). -/
def serve_finish (e : entry_t) (res : response_t) (s1 : datum_stream_t)
    (ds : List datum_t) (bt : batch_type_t) : serve_result_t :=
  let res2 :=
    match s1.cfeed_type with
    | feed_type_t.not_feed =>
        if ds.length = 0 then res.set_type response_type_t.SUCCESS_SEQUENCE else res
    | feed_type_t.stream => res.add_note response_note_t.SEQUENCE_FEED
    | feed_type_t.point => res.add_note response_note_t.ATOM_FEED
    | feed_type_t.orderby_limit => res.add_note response_note_t.ORDER_BY_LIMIT_FEED
    | feed_type_t.unioned => res.add_note response_note_t.UNIONED_FEED
  serve_result_t.served e {res2 with notes := res2.notes ++ s1.extra_notes} bt

/-- ref_t::serve: one continuation step on the stream of the entry. -/
def serve (e : entry_t) (res : response_t) (ev : eval_event_t) : serve_result_t :=
  match e.stream with
  | none => serve_result_t.fatalS
  | some s =>
    let bt := if e.has_sent_batch then batch_type_t.NORMAL else batch_type_t.NORMAL_FIRST
    if interrupted_now e ev then
      serve_result_t.raisedS eval_exc_t.interrupted_exc (apply_event e ev)
    else
      match s.next_batch with
      | (batch_outcome_t.raise_exc msg, _) => serve_result_t.raisedS (eval_exc_t.exc msg) e
      | (batch_outcome_t.raise_std msg, _) => serve_result_t.raisedS (eval_exc_t.std_exc msg) e
      | (batch_outcome_t.batch ds exhausted, s1) =>
        let e1 := {e with has_sent_batch := true, stream := some s1}
        let res1 := res.set_data_vec ds
        if exhausted || e1.noreply then
          if e1.state ≠ state_t.STREAM then serve_result_t.fatalS
          else
            serve_finish {e1 with state := state_t.DONE}
                         (res1.set_type response_type_t.SUCCESS_SEQUENCE) s1 ds bt
        else
          serve_finish e1 (res1.set_type response_type_t.SUCCESS_PARTIAL) s1 ds bt

def dup_exc (tok : Int) : bt_exc_t :=
  ⟨response_type_t.CLIENT_ERROR, "ERROR: duplicate token " ++ toString tok,
   backtrace_t.EMPTY_BACKTRACE⟩

def not_found_exc (tok : Int) : bt_exc_t :=
  ⟨response_type_t.CLIENT_ERROR, "Token " ++ toString tok ++ " not in stream cache.",
   backtrace_t.EMPTY_BACKTRACE⟩

def jobs_msg : String := "Query terminated by the `rethinkdb.jobs` table."

/-- Result of ref_t::fill_response: normal return, a bt_exc_t thrown (with
the entry as left at the throw), interrupted_exc_t propagating, or a
guarantee failure. -/
inductive fill_result_t
  | success (e : entry_t) (res : response_t)
  | thrownBt (exc : bt_exc_t) (e : entry_t)
  | thrownInterrupted (e : entry_t)
  | fatalF
deriving DecidableEq

/-- The three catch arms of fill_response. -/
def fill_catch (exc : eval_exc_t) (e : entry_t) : fill_result_t :=
  match exc with
  | eval_exc_t.interrupted_exc =>
    if e.persistent_interruptor then
      if e.state ≠ state_t.DONE then
        fill_result_t.thrownBt ⟨response_type_t.RUNTIME_ERROR, jobs_msg,
                                backtrace_t.EMPTY_BACKTRACE⟩ e
      else
        fill_result_t.success e (({} : response_t).set_type response_type_t.SUCCESS_SEQUENCE)
    else
      fill_result_t.thrownInterrupted (terminate_internal e)
  | eval_exc_t.exc msg =>
      fill_result_t.thrownBt ⟨response_type_t.RUNTIME_ERROR, msg,
                              backtrace_t.datum_backtrace msg⟩ (terminate_internal e)
  | eval_exc_t.std_exc msg =>
      fill_result_t.thrownBt ⟨response_type_t.RUNTIME_ERROR, msg,
                              backtrace_t.EMPTY_BACKTRACE⟩ (terminate_internal e)

/-- The profile attachment at the end of the try block: trace.has() holds iff
the entry was created with profiling. -/
def attach_profile (profiling : Bool) (res : response_t) : response_t :=
  if profiling then res.set_profile 0 else res

/-- The second half of the try block of fill_response: serve if the state is
STREAM, then attach the profile trace. -/
def serve_phase (e : entry_t) (res : response_t) (ev : eval_event_t) : fill_result_t :=
  if e.state = state_t.STREAM then
    match serve e res ev with
    | serve_result_t.fatalS => fill_result_t.fatalF
    | serve_result_t.raisedS exc e2 => fill_catch exc e2
    | serve_result_t.served e2 r2 _ => fill_result_t.success e2 (attach_profile e2.profile r2)
  else
    fill_result_t.success e (attach_profile e.profile res)

/-- ref_t::fill_response: stale-state check, then run (for START) with
root_term cleared on its normal return, then serve (for STREAM), with the
catch arms translating escaped exceptions. -/
def fill_response (tok : Int) (e : entry_t) (res : response_t) (ev : eval_event_t) :
    fill_result_t :=
  if ¬(e.state = state_t.START ∨ e.state = state_t.STREAM) then
    fill_result_t.thrownBt (dup_exc tok) e
  else if e.state = state_t.START then
    match run e res ev with
    | run_result_t.fatal => fill_result_t.fatalF
    | run_result_t.raised exc e1 => fill_catch exc e1
    | run_result_t.ok e1 r1 => serve_phase {e1 with root_term := none} r1 eval_event_t.noEvent
  else
    serve_phase e res ev

/-- The entry component of a fill_response result, when one escapes. -/
def fill_result_t.entry_of : fill_result_t → Option entry_t
  | fill_result_t.success e _ => some e
  | fill_result_t.thrownBt _ e => some e
  | fill_result_t.thrownInterrupted e => some e
  | fill_result_t.fatalF => none

/-- Modelled from the spec: the Query-ID tracker (query_id_t and the
outstanding-id accounting declared in query_cache.hpp, which is not part of
the provided source) issues strictly increasing ids; outstanding holds the
issued ids not yet released. -/
structure query_id_tracker_t where
  next_query_id : Nat
  outstanding : List Nat
deriving DecidableEq

/-- Modelled from the spec: releasing an id removes it from the outstanding
ids; releasing an id that is not outstanding is a no-op, which is the
behavior of maybe_release_query_id on an already-released id. -/
def query_id_tracker_t.release (t : query_id_tracker_t) (i : Nat) : query_id_tracker_t :=
  {t with outstanding := t.outstanding.erase i}

/-- Modelled from the spec: oldest_outstanding_query_id is the minimum issued
id not yet released, and equals next_query_id when none are outstanding. -/
def query_id_tracker_t.oldest_outstanding (t : query_id_tracker_t) : Nat :=
  t.outstanding.foldr min t.next_query_id

/-- The outcome of building term_storage and global_optargs, preprocessing
the term tree and compiling the root term in create: a compiled term (with
its evaluation behavior), an exc_t, or a datum_exc_t. -/
inductive compile_outcome_t
  | compiled (t : term_eval_t)
  | fail_exc (msg : String)
  | fail_datum (msg : String)
deriving DecidableEq

/-- query_params_t as the query cache reads it. -/
structure query_params_t where
  token : Int
  id : Nat
  noreply : Bool
  profile : Bool
  compile_result : compile_outcome_t
deriving DecidableEq

/-- query_cache_t: the token map, the id tracker, and the entries handed to
the scheduled async_destroy_entry calls. -/
structure query_cache_t where
  queries : List (Int × entry_t)
  tracker : query_id_tracker_t
  pending_destroy : List entry_t := []
deriving DecidableEq

def lookupToken (qc : query_cache_t) (tok : Int) : Option entry_t :=
  (qc.queries.find? (fun kv => kv.1 == tok)).map (fun kv => kv.2)

/-- The entry_t constructor as invoked by create. -/
def entry_init (p : query_params_t) (t : term_eval_t) : entry_t :=
  { state := state_t.START, noreply := p.noreply, profile := p.profile,
    root_term := some t, stream := none, has_sent_batch := false,
    persistent_interruptor := false }

inductive create_result_t
  | createdRef
  | threw (b : bt_exc_t)
deriving DecidableEq

/-- query_cache_t::create: release the query id, check for a duplicate token,
compile, construct the entry and the ref, and only then insert the pair into
the map. -/
def create (qc : query_cache_t) (p : query_params_t) : query_cache_t × create_result_t :=
  let qc1 := {qc with tracker := qc.tracker.release p.id}
  if (lookupToken qc1 p.token).isSome then
    (qc1, create_result_t.threw (dup_exc p.token))
  else
    match p.compile_result with
    | compile_outcome_t.fail_exc msg =>
        (qc1, create_result_t.threw ⟨response_type_t.COMPILE_ERROR, msg,
                                     backtrace_t.datum_backtrace msg⟩)
    | compile_outcome_t.fail_datum msg =>
        (qc1, create_result_t.threw ⟨response_type_t.COMPILE_ERROR, msg,
                                     backtrace_t.EMPTY_BACKTRACE⟩)
    | compile_outcome_t.compiled t =>
        ({qc1 with queries := qc1.queries ++ [(p.token, entry_init p t)]},
         create_result_t.createdRef)

inductive get_result_t
  | gotRef (e : entry_t)
  | threwG (b : bt_exc_t)
deriving DecidableEq

/-- query_cache_t::get: release the query id, then look the token up. -/
def get (qc : query_cache_t) (p : query_params_t) : query_cache_t × get_result_t :=
  let qc1 := {qc with tracker := qc.tracker.release p.id}
  match lookupToken qc1 p.token with
  | none => (qc1, get_result_t.threwG (not_found_exc p.token))
  | some e => (qc1, get_result_t.gotRef e)

inductive noreply_wait_result_t
  | threwN (b : bt_exc_t)
  | waitsUntil
deriving DecidableEq

/-- query_cache_t::noreply_wait: duplicate-token check, then block on the
oldest-outstanding watchable.  waitsUntil stands for the blocking wait whose
return condition is noreply_wait_cond.  Note that it does not release the
query id. -/
def noreply_wait (qc : query_cache_t) (p : query_params_t) :
    query_cache_t × noreply_wait_result_t :=
  if (lookupToken qc p.token).isSome then
    (qc, noreply_wait_result_t.threwN (dup_exc p.token))
  else
    (qc, noreply_wait_result_t.waitsUntil)

/-- The predicate of run_until_satisfied in noreply_wait: the wait returns
normally exactly in a tracker state satisfying this condition. -/
def noreply_wait_cond (t : query_id_tracker_t) (p : query_params_t) : Prop :=
  t.oldest_outstanding = p.id

def update_entry (l : List (Int × entry_t)) (tok : Int) (e : entry_t) :
    List (Int × entry_t) :=
  l.map (fun kv => if kv.1 == tok then (tok, e) else kv)

/-- query_cache_t::terminate_query: look the token up; if present, call
terminate_internal on the entry; no error otherwise.  Note that it does not
release the query id. -/
def terminate_query (qc : query_cache_t) (p : query_params_t) : query_cache_t :=
  match lookupToken qc p.token with
  | none => qc
  | some e => {qc with queries := update_entry qc.queries p.token (terminate_internal e)}

def erase_token (l : List (Int × entry_t)) (tok : Int) : List (Int × entry_t) :=
  l.filter (fun kv => kv.1 != tok)

/-- ref_t::~ref_t: guarantee the entry is not in START; if it is DONE, move
it to DELETING, hand it to the scheduled async_destroy_entry call and erase
the token from the map; otherwise leave the cache unchanged.  none models a
guarantee failure. -/
def ref_drop (qc : query_cache_t) (tok : Int) (e : entry_t) :
    Option (query_cache_t × entry_t) :=
  if e.state = state_t.START then none
  else if e.state = state_t.DONE then
    let e1 := {e with state := state_t.DELETING}
    match lookupToken qc tok with
    | none => none
    | some _ =>
      some ({qc with queries := erase_token qc.queries tok,
                     pending_destroy := qc.pending_destroy ++ [e1]}, e1)
  else
    some (qc, e)

/-- C1: for an entry in state START, fill_response pre-sets the state to DONE
and evaluates the root term; a DATUM-convertible value, promiscuous grouped
data, or a sequence fully materializable as an array yield SUCCESS_ATOM
carrying the value with the state left DONE; a sequence that is not fully
materializable populates the stream of the entry, resets has_sent_batch,
moves the state to STREAM and falls through to serve within the same call;
any other value type raises an error naming the offending type. -/
theorem c1_first_eval_dispatch (tok : Int) (e : entry_t) (res : response_t)
    (hs : e.state = state_t.START)
    (hp : e.persistent_interruptor = false) :
    (∀ d, e.root_term = some (term_eval_t.val (val_model_t.datumVal d)) →
      fill_response tok e res eval_event_t.noEvent =
        fill_result_t.success {e with state := state_t.DONE, root_term := none}
          (attach_profile e.profile
            ((res.set_type response_type_t.SUCCESS_ATOM).set_data d)))
  ∧ (∀ d, e.root_term = some (term_eval_t.val (val_model_t.groupedVal d)) →
      fill_response tok e res eval_event_t.noEvent =
        fill_result_t.success {e with state := state_t.DONE, root_term := none}
          (attach_profile e.profile
            ((res.set_type response_type_t.SUCCESS_ATOM).set_data d)))
  ∧ (∀ a s, e.root_term = some (term_eval_t.val (val_model_t.seqVal (some a) s)) →
      fill_response tok e res eval_event_t.noEvent =
        fill_result_t.success {e with state := state_t.DONE, root_term := none}
          (attach_profile e.profile
            ((res.set_type response_type_t.SUCCESS_ATOM).set_data a)))
  ∧ (∀ s, e.root_term = some (term_eval_t.val (val_model_t.seqVal none s)) →
      fill_response tok e res eval_event_t.noEvent =
        serve_phase {e with state := state_t.STREAM, stream := some s,
                            has_sent_batch := false, root_term := none}
          res eval_event_t.noEvent)
  ∧ (∀ nm, e.root_term = some (term_eval_t.val (val_model_t.otherVal nm)) →
      fill_response tok e res eval_event_t.noEvent =
        fill_result_t.thrownBt
          ⟨response_type_t.RUNTIME_ERROR, other_type_msg nm,
           backtrace_t.datum_backtrace (other_type_msg nm)⟩
          {e with state := state_t.DONE, persistent_interruptor := true}) := by
  rcases e with ⟨st, nr, pf, rt, strm, hsb, pi⟩
  dsimp only at hs hp
  subst hs; subst hp
  refine ⟨?_, ?_, ?_, ?_, ?_⟩
  · intro d h; dsimp only at h; subst h; rfl
  · intro d h; dsimp only at h; subst h; rfl
  · intro a s h; dsimp only at h; subst h; rfl
  · intro s h; dsimp only at h; subst h; rfl
  · intro nm h; dsimp only at h; subst h; rfl

def c1_entry : entry_t :=
  { state := state_t.START, noreply := false, profile := false,
    root_term := some (term_eval_t.val (val_model_t.datumVal 2)),
    stream := none, has_sent_batch := false, persistent_interruptor := false }

theorem c1_witness :
    fill_response 1 c1_entry {} eval_event_t.noEvent =
      fill_result_t.success {c1_entry with state := state_t.DONE, root_term := none}
        (attach_profile c1_entry.profile
          ((({} : response_t).set_type response_type_t.SUCCESS_ATOM).set_data 2)) :=
  (c1_first_eval_dispatch 1 c1_entry {} rfl rfl).1 2 rfl

/-- C2: serve on an entry whose stream is present requests the batch with
kind NORMAL_FIRST exactly when has_sent_batch is false, sets has_sent_batch
to true, and classifies the response as SUCCESS_SEQUENCE exactly when the
stream is exhausted, the entry is noreply (these two also move the state to
DONE), or the stream is not a change feed and the batch is empty; in every
other case the response is SUCCESS_PARTIAL. -/
theorem c2_serve_classification (e : entry_t) (res : response_t) (s s1 : datum_stream_t)
    (ds : List datum_t) (ex : Bool)
    (hstream : e.stream = some s) (hstate : e.state = state_t.STREAM)
    (hp : e.persistent_interruptor = false)
    (hnb : s.next_batch = (batch_outcome_t.batch ds ex, s1)) :
    ∃ e2 r2,
      serve e res eval_event_t.noEvent =
        serve_result_t.served e2 r2
          (if e.has_sent_batch then batch_type_t.NORMAL else batch_type_t.NORMAL_FIRST)
      ∧ e2.has_sent_batch = true
      ∧ ((ex = true ∨ e.noreply = true) → e2.state = state_t.DONE)
      ∧ ((ex = false ∧ e.noreply = false) → e2.state = state_t.STREAM)
      ∧ (r2.rtype = some response_type_t.SUCCESS_SEQUENCE ↔
           (ex = true ∨ e.noreply = true ∨
             (s1.cfeed_type = feed_type_t.not_feed ∧ ds = [])))
      ∧ (r2.rtype = some response_type_t.SUCCESS_SEQUENCE ∨
         r2.rtype = some response_type_t.SUCCESS_PARTIAL) := by
  rcases e with ⟨st, nr, pf, rt, strm, hsb, pi⟩
  dsimp only at hstream hstate hp ⊢
  subst hstream; subst hstate; subst hp
  unfold serve
  simp only [interrupted_now, Bool.false_or, hnb]
  rcases s1 with ⟨cf, obs1, extra⟩
  cases ex <;> cases nr <;> cases cf <;>
    simp only [serve_finish, response_t.set_type, response_t.set_data_vec,
               response_t.add_note, Bool.or_self, Bool.or_true, Bool.true_or,
               Bool.or_false, if_true, if_false, decide_not] <;>
    (by_cases hds : ds = [] <;>
      simp [hds, List.length_eq_zero, response_t.set_type] <;>
      exact ⟨_, _, ⟨rfl, rfl⟩, by simp [hds]⟩)

def c2_entry : entry_t :=
  { state := state_t.STREAM, noreply := false, profile := false,
    root_term := none,
    stream := some { cfeed_type := feed_type_t.not_feed,
                     obs := [batch_outcome_t.batch [5] false,
                             batch_outcome_t.batch [6] true] },
    has_sent_batch := false, persistent_interruptor := false }

theorem c2_witness :
    ∃ e2 r2,
      serve c2_entry {} eval_event_t.noEvent =
        serve_result_t.served e2 r2
          (if c2_entry.has_sent_batch then batch_type_t.NORMAL
           else batch_type_t.NORMAL_FIRST)
      ∧ e2.has_sent_batch = true
      ∧ ((false = true ∨ c2_entry.noreply = true) → e2.state = state_t.DONE)
      ∧ ((false = false ∧ c2_entry.noreply = false) → e2.state = state_t.STREAM)
      ∧ (r2.rtype = some response_type_t.SUCCESS_SEQUENCE ↔
           (false = true ∨ c2_entry.noreply = true ∨
             (({ cfeed_type := feed_type_t.not_feed,
                 obs := [batch_outcome_t.batch [6] true] } :
                 datum_stream_t).cfeed_type = feed_type_t.not_feed ∧
               ([5] : List datum_t) = [])))
      ∧ (r2.rtype = some response_type_t.SUCCESS_SEQUENCE ∨
         r2.rtype = some response_type_t.SUCCESS_PARTIAL) :=
  c2_serve_classification c2_entry {}
    { cfeed_type := feed_type_t.not_feed,
      obs := [batch_outcome_t.batch [5] false, batch_outcome_t.batch [6] true] }
    { cfeed_type := feed_type_t.not_feed, obs := [batch_outcome_t.batch [6] true] }
    [5] false rfl rfl rfl rfl
theorem lookupToken_tracker (qc : query_cache_t) (t : query_id_tracker_t) (tok : Int) :
    lookupToken {qc with tracker := t} tok = lookupToken qc tok := rfl

theorem fill_catch_rkind (exc : eval_exc_t) (e : entry_t) (b : bt_exc_t) (e2 : entry_t)
    (h : fill_catch exc e = fill_result_t.thrownBt b e2) :
    b.rkind = response_type_t.RUNTIME_ERROR := by
  cases exc with
  | interrupted_exc =>
    unfold fill_catch at h
    split_ifs at h
    cases h; rfl
  | exc msg => unfold fill_catch at h; cases h; rfl
  | std_exc msg => unfold fill_catch at h; cases h; rfl

theorem serve_phase_rkind (e : entry_t) (res : response_t) (ev : eval_event_t)
    (b : bt_exc_t) (e2 : entry_t)
    (h : serve_phase e res ev = fill_result_t.thrownBt b e2) :
    b.rkind = response_type_t.RUNTIME_ERROR := by
  unfold serve_phase at h
  split_ifs at h
  revert h
  cases hs : serve e res ev with
  | served e3 r3 bk => intro h; exact absurd h (by simp)
  | raisedS exc e3 => intro h; exact fill_catch_rkind exc e3 b e2 h
  | fatalS => intro h; exact absurd h (by simp)

/-- C3: create raises the CLIENT_ERROR duplicate-token error exactly when the
token is already in the map; get raises the CLIENT_ERROR
token-not-in-stream-cache error exactly when the token is absent;
fill_response raises the CLIENT_ERROR duplicate-token error exactly when the
entry state is neither START nor STREAM; noreply_wait raises the CLIENT_ERROR
duplicate-token error exactly when the token is present; each of these errors
carries the empty backtrace (built into dup_exc and not_found_exc). -/
theorem c3_client_error_iff :
    (∀ qc p, (create qc p).2 = create_result_t.threw (dup_exc p.token) ↔
       (lookupToken qc p.token).isSome = true)
  ∧ (∀ qc p, (get qc p).2 = get_result_t.threwG (not_found_exc p.token) ↔
       lookupToken qc p.token = none)
  ∧ (∀ tok e res ev,
       (∃ e2, fill_response tok e res ev = fill_result_t.thrownBt (dup_exc tok) e2) ↔
       ¬(e.state = state_t.START ∨ e.state = state_t.STREAM))
  ∧ (∀ qc p, (noreply_wait qc p).2 = noreply_wait_result_t.threwN (dup_exc p.token) ↔
       (lookupToken qc p.token).isSome = true) := by
  refine ⟨?_, ?_, ?_, ?_⟩
  · intro qc p
    by_cases hlk : (lookupToken qc p.token).isSome = true
    · simp [create, lookupToken_tracker, hlk]
    · cases hc : p.compile_result <;>
        simp [create, lookupToken_tracker, hlk, hc, dup_exc]
  · intro qc p
    cases hlk : lookupToken qc p.token with
    | none => simp [get, lookupToken_tracker, hlk]
    | some e0 => simp [get, lookupToken_tracker, hlk]
  · intro tok e res ev
    constructor
    · rintro ⟨e2, h⟩
      by_cases hA : e.state = state_t.START ∨ e.state = state_t.STREAM
      · exfalso
        unfold fill_response at h
        rw [if_neg (not_not_intro hA)] at h
        split_ifs at h
        · revert h
          cases hr : run e res ev with
          | ok e1 r1 =>
            intro h
            have := serve_phase_rkind _ _ _ _ _ h
            simp [dup_exc] at this
          | raised exc e1 =>
            intro h
            have := fill_catch_rkind _ _ _ _ h
            simp [dup_exc] at this
          | fatal => intro h; exact absurd h (by simp)
        · have := serve_phase_rkind _ _ _ _ _ h
          simp [dup_exc] at this
      · exact hA
    · intro hbad
      exact ⟨e, by unfold fill_response; rw [if_pos hbad]⟩
  · intro qc p
    by_cases hlk : (lookupToken qc p.token).isSome = true
    · simp [noreply_wait, hlk]
    · simp [noreply_wait, hlk]

def c3_qc : query_cache_t :=
  { queries := [(1, { state := state_t.DONE, noreply := false, profile := false,
                      root_term := none, stream := none, has_sent_batch := false,
                      persistent_interruptor := false })],
    tracker := { next_query_id := 1, outstanding := [] } }

def c3_p : query_params_t :=
  { token := 1, id := 0, noreply := false, profile := false,
    compile_result := compile_outcome_t.fail_datum "x" }

theorem c3_witness :
    (noreply_wait c3_qc c3_p).2 = noreply_wait_result_t.threwN (dup_exc c3_p.token) :=
  (c3_client_error_iff.2.2.2 c3_qc c3_p).mpr rfl

def c4_entry : entry_t :=
  { state := state_t.STREAM, noreply := false, profile := false,
    root_term := none,
    stream := some { cfeed_type := feed_type_t.not_feed,
                     obs := [batch_outcome_t.batch [1] false] },
    has_sent_batch := true, persistent_interruptor := false }

/-- C4 counterexample: invoking terminate_internal on an entry that is being
served moves its state to DONE before pulsing, so the interrupted evaluation
is answered by a clean SUCCESS_SEQUENCE response instead of the claimed
RUNTIME_ERROR naming the rethinkdb.jobs table. -/
theorem c4_counterexample :
    fill_response 3 c4_entry {} eval_event_t.terminateInternalEvent =
      fill_result_t.success
        {c4_entry with state := state_t.DONE, persistent_interruptor := true}
        (({} : response_t).set_type response_type_t.SUCCESS_SEQUENCE) := by
  decide

/-- C4 (amended): the jobs-table RUNTIME_ERROR arises exactly from a pulse of
the persistent interruptor that does not move the state to DONE: if the
interruptor is pulsed directly while the entry is being served (state
STREAM), fill_response raises RUNTIME_ERROR with the message naming the
rethinkdb.jobs table and an empty backtrace; invoking terminate_internal
itself moves the state to DONE first, so the interrupted call instead
returns a clean SUCCESS_SEQUENCE (see the counterexample). -/
theorem c4_direct_pulse_jobs_error (tok : Int) (e : entry_t) (res : response_t)
    (s : datum_stream_t) (hstream : e.stream = some s)
    (hstate : e.state = state_t.STREAM) :
    fill_response tok e res eval_event_t.directPulseEvent =
      fill_result_t.thrownBt
        ⟨response_type_t.RUNTIME_ERROR, jobs_msg, backtrace_t.EMPTY_BACKTRACE⟩
        {e with persistent_interruptor := true} := by
  rcases e with ⟨st, nr, pf, rt, strm, hsb, pi⟩
  dsimp only at hstream hstate
  subst hstream; subst hstate
  cases pi <;> rfl

def c4w_entry : entry_t :=
  { state := state_t.STREAM, noreply := false, profile := false,
    root_term := none,
    stream := some { cfeed_type := feed_type_t.stream,
                     obs := [batch_outcome_t.batch [] false] },
    has_sent_batch := false, persistent_interruptor := false }

theorem c4_witness :
    fill_response 4 c4w_entry {} eval_event_t.directPulseEvent =
      fill_result_t.thrownBt
        ⟨response_type_t.RUNTIME_ERROR, jobs_msg, backtrace_t.EMPTY_BACKTRACE⟩
        {c4w_entry with persistent_interruptor := true} :=
  c4_direct_pulse_jobs_error 4 c4w_entry {}
    { cfeed_type := feed_type_t.stream, obs := [batch_outcome_t.batch [] false] }
    rfl rfl

/-- C5: when evaluation inside fill_response raises interrupted_exc_t and the
persistent interruptor is pulsed with the state DONE (a client STOP), the
response is cleared and set to SUCCESS_SEQUENCE and no exception propagates;
when the persistent interruptor is not pulsed (the external per-request
interruptor fired), terminate_internal is applied to the entry and the
interrupted exception propagates, from the run phase and from the serve
phase alike. -/
theorem c5_interrupted_dispatch :
    (∀ (tok : Int) (e : entry_t) (res : response_t) (t : term_eval_t),
       e.state = state_t.START → e.root_term = some t →
       e.persistent_interruptor = true →
       fill_response tok e res eval_event_t.noEvent =
         fill_result_t.success {e with state := state_t.DONE}
           (({} : response_t).set_type response_type_t.SUCCESS_SEQUENCE))
  ∧ (∀ (tok : Int) (e : entry_t) (res : response_t) (t : term_eval_t),
       e.state = state_t.START → e.root_term = some t →
       e.persistent_interruptor = false →
       fill_response tok e res eval_event_t.externalInterrupt =
         fill_result_t.thrownInterrupted
           {e with state := state_t.DONE, persistent_interruptor := true})
  ∧ (∀ (tok : Int) (e : entry_t) (res : response_t) (s : datum_stream_t),
       e.state = state_t.STREAM → e.stream = some s →
       e.persistent_interruptor = false →
       fill_response tok e res eval_event_t.externalInterrupt =
         fill_result_t.thrownInterrupted
           {e with state := state_t.DONE, persistent_interruptor := true}) := by
  refine ⟨?_, ?_, ?_⟩
  · intro tok e res t hs hrt hp
    rcases e with ⟨st, nr, pf, rt, strm, hsb, pi⟩
    dsimp only at hs hrt hp
    subst hs; subst hrt; subst hp
    rfl
  · intro tok e res t hs hrt hp
    rcases e with ⟨st, nr, pf, rt, strm, hsb, pi⟩
    dsimp only at hs hrt hp
    subst hs; subst hrt; subst hp
    rfl
  · intro tok e res s hs hstream hp
    rcases e with ⟨st, nr, pf, rt, strm, hsb, pi⟩
    dsimp only at hs hstream hp
    subst hs; subst hstream; subst hp
    rfl

def c5_entry : entry_t :=
  { state := state_t.START, noreply := false, profile := false,
    root_term := some (term_eval_t.val (val_model_t.datumVal 8)),
    stream := none, has_sent_batch := false, persistent_interruptor := true }

theorem c5_witness :
    fill_response 5 c5_entry {} eval_event_t.noEvent =
      fill_result_t.success {c5_entry with state := state_t.DONE}
        (({} : response_t).set_type response_type_t.SUCCESS_SEQUENCE) :=
  c5_interrupted_dispatch.1 5 c5_entry {}
    (term_eval_t.val (val_model_t.datumVal 8)) rfl rfl rfl

theorem lookup_erase_none (l : List (Int × entry_t)) (tok : Int) :
    (erase_token l tok).find? (fun kv => kv.1 == tok) = none := by
  induction l with
  | nil => rfl
  | cons a as ih =>
    by_cases h : a.1 = tok
    · simp [erase_token, List.filter_cons, h] at ih ⊢
    · simp [erase_token, List.filter_cons, List.find?_cons, h] at ih ⊢

/-- C6: the destructor of a ref never completes with the entry in START (the
guarantee aborts); when the state is DONE it moves the entry to DELETING,
hands it to the scheduled asynchronous disposal, and removes the token from
the map, so a subsequent get on the token fails with the
token-not-in-stream-cache error; when the state is STREAM or DELETING the
cache is left unchanged. -/
theorem c6_ref_drop_contract (qc : query_cache_t) (tok : Int) (e : entry_t) :
    (e.state = state_t.START → ref_drop qc tok e = none)
  ∧ (e.state = state_t.DONE → lookupToken qc tok = some e →
       ∃ qc2, ref_drop qc tok e = some (qc2, {e with state := state_t.DELETING})
         ∧ qc2.queries = erase_token qc.queries tok
         ∧ qc2.pending_destroy =
             qc.pending_destroy ++ [{e with state := state_t.DELETING}]
         ∧ lookupToken qc2 tok = none
         ∧ (∀ p : query_params_t, p.token = tok →
              (get qc2 p).2 = get_result_t.threwG (not_found_exc tok)))
  ∧ ((e.state = state_t.STREAM ∨ e.state = state_t.DELETING) →
       ref_drop qc tok e = some (qc, e)) := by
  refine ⟨?_, ?_, ?_⟩
  · intro h
    unfold ref_drop
    rw [if_pos h]
  · intro hD hlk
    refine ⟨{qc with queries := erase_token qc.queries tok,
                     pending_destroy :=
                       qc.pending_destroy ++ [{e with state := state_t.DELETING}]},
            ?_, rfl, rfl, ?_, ?_⟩
    · unfold ref_drop
      rw [hD]
      simp [hlk]
    · simp [lookupToken, lookup_erase_none]
    · intro p hp
      unfold get
      rw [hp]
      simp [lookupToken_tracker, lookupToken, lookup_erase_none]
  · intro h
    rcases h with h | h <;>
      · unfold ref_drop
        rw [h]
        rfl

def c6_qc : query_cache_t :=
  { queries := [(6, { state := state_t.DONE, noreply := false, profile := false,
                      root_term := none, stream := none, has_sent_batch := true,
                      persistent_interruptor := true })],
    tracker := { next_query_id := 2, outstanding := [] } }

def c6_e : entry_t :=
  { state := state_t.DONE, noreply := false, profile := false,
    root_term := none, stream := none, has_sent_batch := true,
    persistent_interruptor := true }

theorem c6_witness :
    ∃ qc2, ref_drop c6_qc 6 c6_e = some (qc2, {c6_e with state := state_t.DELETING})
      ∧ qc2.queries = erase_token c6_qc.queries 6
      ∧ qc2.pending_destroy =
          c6_qc.pending_destroy ++ [{c6_e with state := state_t.DELETING}]
      ∧ lookupToken qc2 6 = none
      ∧ (∀ p : query_params_t, p.token = 6 →
           (get qc2 p).2 = get_result_t.threwG (not_found_exc 6)) :=
  (c6_ref_drop_contract c6_qc 6 c6_e).2.1 rfl rfl

def c7_qc : query_cache_t :=
  { queries := [], tracker := { next_query_id := 6, outstanding := [5] } }

def c7_p : query_params_t :=
  { token := 1, id := 5, noreply := false, profile := false,
    compile_result := compile_outcome_t.fail_datum "y" }

/-- C7 counterexample: terminate_query and noreply_wait perform no release of
the query id at all: after either call on a concrete cache whose tracker
still holds id 5, the id is still outstanding, contradicting the claim that
each of the four operations releases the id as its first action. -/
theorem c7_counterexample :
    (terminate_query c7_qc c7_p).tracker.outstanding = [5]
  ∧ (noreply_wait c7_qc c7_p).1.tracker.outstanding = [5] := by
  decide

/-- C7 (amended): create and get release the query id of the caller back to
the tracker before any lookup (the release happens on every path, including
the error paths); terminate_query and noreply_wait do not release the id at
all - in particular noreply_wait must keep its own id outstanding, since its
wait condition is that the oldest outstanding id equals its own. -/
theorem c7_release_discipline (qc : query_cache_t) (p : query_params_t) :
    (create qc p).1.tracker = qc.tracker.release p.id
  ∧ (get qc p).1.tracker = qc.tracker.release p.id
  ∧ (terminate_query qc p).tracker = qc.tracker
  ∧ (noreply_wait qc p).1.tracker = qc.tracker := by
  refine ⟨?_, ?_, ?_, ?_⟩
  · by_cases hlk : (lookupToken qc p.token).isSome = true
    · simp [create, lookupToken_tracker, hlk]
    · cases hc : p.compile_result <;>
        simp [create, lookupToken_tracker, hlk, hc]
  · cases hlk : lookupToken qc p.token with
    | none => simp [get, lookupToken_tracker, hlk]
    | some e0 => simp [get, lookupToken_tracker, hlk]
  · cases hlk : lookupToken qc p.token with
    | none => simp [terminate_query, hlk]
    | some e0 => simp [terminate_query, hlk]
  · unfold noreply_wait
    split_ifs <;> rfl

theorem terminate_internal_root_term (e : entry_t) :
    (terminate_internal e).root_term = e.root_term := by
  unfold terminate_internal
  split <;> rfl

theorem apply_event_root_term (e : entry_t) (ev : eval_event_t) :
    (apply_event e ev).root_term = e.root_term := by
  cases ev <;> simp [apply_event, terminate_internal_root_term]

theorem fill_catch_root_term (exc : eval_exc_t) (e : entry_t) (e2 : entry_t)
    (h : (fill_catch exc e).entry_of = some e2) :
    e2.root_term = e.root_term := by
  cases exc with
  | interrupted_exc =>
    unfold fill_catch at h
    split_ifs at h <;>
      · cases Option.some.inj h
        simp [terminate_internal_root_term]
  | exc msg =>
    unfold fill_catch at h
    cases Option.some.inj h
    simp [terminate_internal_root_term]
  | std_exc msg =>
    unfold fill_catch at h
    cases Option.some.inj h
    simp [terminate_internal_root_term]

def serve_rt_inv (e : entry_t) : serve_result_t → Prop
  | serve_result_t.served e2 _ _ => e2.root_term = e.root_term
  | serve_result_t.raisedS _ e2 => e2.root_term = e.root_term
  | serve_result_t.fatalS => True

theorem serve_preserves_rt (e : entry_t) (res : response_t) (ev : eval_event_t) :
    serve_rt_inv e (serve e res ev) := by
  unfold serve
  cases hstrm : e.stream with
  | none => trivial
  | some s =>
    dsimp only
    by_cases hin : interrupted_now e ev = true
    · simp only [hin, if_true]
      exact apply_event_root_term e ev
    · rw [if_neg hin]
      rcases hnb : s.next_batch with ⟨o, s1⟩
      cases o with
      | batch ds exhausted =>
        dsimp only
        by_cases hex : (exhausted || e.noreply) = true
        · rw [if_pos hex]
          by_cases hst : e.state ≠ state_t.STREAM
          · rw [if_pos hst]; trivial
          · rw [if_neg hst]; simp [serve_finish, serve_rt_inv]
        · rw [if_neg hex]; simp [serve_finish, serve_rt_inv]
      | raise_exc msg => simp [serve_rt_inv]
      | raise_std msg => simp [serve_rt_inv]

theorem serve_root_term_served (e : entry_t) (res : response_t) (ev : eval_event_t)
    (e2 : entry_t) (r2 : response_t) (bk : batch_type_t)
    (h : serve e res ev = serve_result_t.served e2 r2 bk) :
    e2.root_term = e.root_term := by
  have hi := serve_preserves_rt e res ev
  rw [h] at hi
  exact hi

theorem serve_root_term_raised (e : entry_t) (res : response_t) (ev : eval_event_t)
    (exc : eval_exc_t) (e2 : entry_t)
    (h : serve e res ev = serve_result_t.raisedS exc e2) :
    e2.root_term = e.root_term := by
  have hi := serve_preserves_rt e res ev
  rw [h] at hi
  exact hi

theorem serve_phase_root_term (e : entry_t) (res : response_t) (ev : eval_event_t)
    (e2 : entry_t) (h : (serve_phase e res ev).entry_of = some e2) :
    e2.root_term = e.root_term := by
  unfold serve_phase at h
  revert h
  split_ifs
  · cases hs : serve e res ev with
    | served e3 r3 bk =>
      intro h
      cases Option.some.inj h
      exact serve_root_term_served e res ev _ _ _ hs
    | raisedS exc e3 =>
      intro h
      exact (fill_catch_root_term exc e3 e2 h).trans
        (serve_root_term_raised e res ev exc e3 hs)
    | fatalS => intro h; exact absurd h (by simp [fill_result_t.entry_of])
  · intro h
    cases Option.some.inj h
    rfl

def c8_entry : entry_t :=
  { state := state_t.START, noreply := false, profile := false,
    root_term := some (term_eval_t.raise_std "boom"),
    stream := none, has_sent_batch := false, persistent_interruptor := false }

/-- C8 counterexample: when the first evaluation raises, fill_response
escapes before the root_term.reset() line, so the entry leaves fill_response
with state DONE and root_term still non-null, contradicting the claim that
root_term is non-null only while the state is START and that it is cleared
when fill_response completes by exception. -/
theorem c8_counterexample :
    fill_response 2 c8_entry {} eval_event_t.noEvent =
      fill_result_t.thrownBt
        ⟨response_type_t.RUNTIME_ERROR, "boom", backtrace_t.EMPTY_BACKTRACE⟩
        {c8_entry with state := state_t.DONE, persistent_interruptor := true}
  ∧ ({c8_entry with state := state_t.DONE, persistent_interruptor := true} :
       entry_t).root_term = some (term_eval_t.raise_std "boom")
  ∧ ({c8_entry with state := state_t.DONE, persistent_interruptor := true} :
       entry_t).state = state_t.DONE := by
  decide

/-- C8 (amended): root_term is cleared exactly when the first evaluation
returns a value (run returns normally); for an entry in START whose root
term evaluates to a datum, grouped data, or a sequence, every entry escaping
fill_response - normally or through the serve phase - has root_term cleared.
If the evaluation raises (including the wrong-type error), root_term remains
set although the state is DONE. -/
theorem c8_root_term_cleared (tok : Int) (e : entry_t) (res : response_t)
    (v : val_model_t)
    (hs : e.state = state_t.START) (hp : e.persistent_interruptor = false)
    (hrt : e.root_term = some (term_eval_t.val v))
    (hv : ∀ nm, v ≠ val_model_t.otherVal nm) :
    ∀ e2, (fill_response tok e res eval_event_t.noEvent).entry_of = some e2 →
      e2.root_term = none := by
  intro e2 h
  rcases e with ⟨st, nr, pf, rt, strm, hsb, pi⟩
  dsimp only at hs hp hrt
  subst hs; subst hp; subst hrt
  cases v with
  | datumVal d => cases Option.some.inj h; rfl
  | groupedVal d => cases Option.some.inj h; rfl
  | seqVal oarr s =>
    cases oarr with
    | none =>
      have h2 :
          (serve_phase
            { state := state_t.STREAM, noreply := nr, profile := pf,
              root_term := none, stream := some s, has_sent_batch := false,
              persistent_interruptor := false } res eval_event_t.noEvent).entry_of =
          some e2 := h
      exact serve_phase_root_term _ res eval_event_t.noEvent e2 h2
    | some arr => cases Option.some.inj h; rfl
  | otherVal nm => exact absurd rfl (hv nm)

def c8w_entry : entry_t :=
  { state := state_t.START, noreply := false, profile := false,
    root_term := some (term_eval_t.val (val_model_t.datumVal 3)),
    stream := none, has_sent_batch := false, persistent_interruptor := false }

theorem c8_witness :
    ({c8w_entry with state := state_t.DONE, root_term := none} : entry_t).root_term =
      none :=
  c8_root_term_cleared 8 c8w_entry {} (val_model_t.datumVal 3) rfl rfl rfl
    (fun _ hx => val_model_t.noConfusion hx)
    {c8w_entry with state := state_t.DONE, root_term := none} rfl

theorem foldr_min_le (l : List Nat) (init m : Nat) (h : m ∈ l) :
    l.foldr min init ≤ m := by
  induction l with
  | nil => cases h
  | cons a as ih =>
    rcases List.mem_cons.mp h with rfl | h2
    · exact min_le_left _ _
    · exact le_trans (min_le_right _ _) (ih h2)

/-- C9: noreply_wait on an absent token reaches the blocking wait, whose
return condition is that the oldest outstanding id equals the id of the
caller; in any tracker state satisfying that condition, every outstanding id
is at least the id of the caller, so every issued id smaller than it has
been released. -/
theorem c9_noreply_wait_barrier :
    (∀ qc p, lookupToken qc p.token = none →
       (noreply_wait qc p).2 = noreply_wait_result_t.waitsUntil)
  ∧ (∀ (t : query_id_tracker_t) (p : query_params_t),
       noreply_wait_cond t p → ∀ m, m ∈ t.outstanding → p.id ≤ m) := by
  constructor
  · intro qc p h
    simp [noreply_wait, h]
  · intro t p hc m hm
    have hle := foldr_min_le t.outstanding t.next_query_id m hm
    unfold noreply_wait_cond query_id_tracker_t.oldest_outstanding at hc
    rw [hc] at hle
    exact hle

def c9_qc : query_cache_t :=
  { queries := [], tracker := { next_query_id := 8, outstanding := [7] } }

def c9_p : query_params_t :=
  { token := 2, id := 7, noreply := true, profile := false,
    compile_result := compile_outcome_t.compiled (term_eval_t.val (val_model_t.datumVal 0)) }

theorem c9_witness :
    (noreply_wait c9_qc c9_p).2 = noreply_wait_result_t.waitsUntil ∧ c9_p.id ≤ 7 :=
  ⟨c9_noreply_wait_barrier.1 c9_qc c9_p rfl,
   c9_noreply_wait_barrier.2 { next_query_id := 8, outstanding := [7] } c9_p rfl 7
     (by decide)⟩

/-- C10: when create fails, with the duplicate-token client error or with a
COMPILE_ERROR, the token map is unchanged, and in particular the lookup of
the token gives afterwards what it gave before, so a later create with the
same token is not treated as a duplicate; the pair is inserted only on the
success path, after compilation has succeeded. -/
theorem c10_create_insert_discipline (qc : query_cache_t) (p : query_params_t) :
    (∀ b, (create qc p).2 = create_result_t.threw b →
       (create qc p).1.queries = qc.queries)
  ∧ (∀ b, (create qc p).2 = create_result_t.threw b →
       lookupToken (create qc p).1 p.token = lookupToken qc p.token)
  ∧ ((create qc p).2 = create_result_t.createdRef →
       ∃ t, p.compile_result = compile_outcome_t.compiled t ∧
         (create qc p).1.queries = qc.queries ++ [(p.token, entry_init p t)]) := by
  refine ⟨?_, ?_, ?_⟩
  · intro b hb
    by_cases hlk : (lookupToken qc p.token).isSome = true
    · simp [create, lookupToken_tracker, hlk]
    · cases hc : p.compile_result with
      | compiled t =>
        rw [create] at hb
        simp [lookupToken_tracker, hlk, hc] at hb
      | fail_exc m => simp [create, lookupToken_tracker, hlk, hc]
      | fail_datum m => simp [create, lookupToken_tracker, hlk, hc]
  · intro b hb
    by_cases hlk : (lookupToken qc p.token).isSome = true
    · simp [create, lookupToken_tracker, hlk]
    · cases hc : p.compile_result with
      | compiled t =>
        rw [create] at hb
        simp [lookupToken_tracker, hlk, hc] at hb
      | fail_exc m => simp [create, lookupToken_tracker, hlk, hc]
      | fail_datum m => simp [create, lookupToken_tracker, hlk, hc]
  · intro hok
    by_cases hlk : (lookupToken qc p.token).isSome = true
    · rw [create] at hok
      simp [lookupToken_tracker, hlk] at hok
    · cases hc : p.compile_result with
      | compiled t =>
        exact ⟨t, rfl, by simp [create, lookupToken_tracker, hlk, hc]⟩
      | fail_exc m =>
        rw [create] at hok
        simp [lookupToken_tracker, hlk, hc] at hok
      | fail_datum m =>
        rw [create] at hok
        simp [lookupToken_tracker, hlk, hc] at hok

def c10_qc : query_cache_t :=
  { queries := [], tracker := { next_query_id := 1, outstanding := [0] } }

def c10_p : query_params_t :=
  { token := 9, id := 0, noreply := false, profile := false,
    compile_result := compile_outcome_t.fail_datum "z" }

theorem c10_witness :
    (create c10_qc c10_p).1.queries = c10_qc.queries :=
  (c10_create_insert_discipline c10_qc c10_p).1
    ⟨response_type_t.COMPILE_ERROR, "z", backtrace_t.EMPTY_BACKTRACE⟩ rfl
end ql
